import Mathlib

/-!
Verification development for the UFO `AppAgentProcessor`
(`ufo/agents/processors/app_agent_processor.py`).

The Python source is shallowly embedded below: pure helper methods become Lean
functions, the class-level Excel-layout cache becomes explicit state passing,
and fallible code returns `Option`/`Except`.  Machine integers are modelled as
`Int`/`Nat` (the pixel coordinates and row/column indices involved never come
near an overflow boundary).  Fractional UI thresholds such as `0.2 * height`
are encoded by exact cross-multiplication (`5 * top < height`).

Parts of the repository that the processor calls but that are not part of the
source tree under verification (the `BaseProcessor.exception_capture`
decorator and the `ControlFilterFactory` filter stages) are modelled from the
specification; their doc comments say so explicitly.
-/

namespace UFO

/-- A pywinauto-style rectangle with absolute pixel coordinates.
`width` and `height` follow `RECT.width()`/`RECT.height()`
(`right - left` / `bottom - top`). -/
structure Rect where
  left : Int
  top : Int
  right : Int
  bottom : Int
deriving DecidableEq, Repr

def Rect.width (r : Rect) : Int := r.right - r.left

def Rect.height (r : Rect) : Int := r.bottom - r.top

/-- Whether `needle` occurs at the very start of `hay`. -/
def charsStartWith : List Char → List Char → Bool
  | [], _ => true
  | _ :: _, [] => false
  | a :: as, b :: bs => a == b && charsStartWith as bs

/-- Whether `needle` occurs contiguously anywhere inside `hay`. -/
def charsContain (needle : List Char) : List Char → Bool
  | [] => needle.isEmpty
  | b :: bs => charsStartWith needle (b :: bs) || charsContain needle bs

/-- Substring containment, the embedding of Python's `needle in hay`. -/
def strIn (needle hay : String) : Bool :=
  charsContain needle.data hay.data

/-- Python `str.isdigit` restricted to ASCII digits: nonempty and all digits. -/
def pyIsDigit (s : String) : Bool :=
  !s.data.isEmpty && s.data.all Char.isDigit

/-- Python `str.isalpha` restricted to ASCII letters: nonempty and all alphabetic. -/
def pyIsAlpha (s : String) : Bool :=
  !s.data.isEmpty && s.data.all Char.isAlpha

/-- Python `str.strip`: drop leading and trailing whitespace. -/
def pyStrip (s : String) : String :=
  String.mk (((s.data.dropWhile Char.isWhitespace).reverse.dropWhile Char.isWhitespace).reverse)

/-- Python `str.lower` (ASCII). -/
def pyLower (s : String) : String :=
  String.mk (s.data.map Char.toLower)

/-- Python `str.upper` (ASCII). -/
def pyUpper (s : String) : String :=
  String.mk (s.data.map Char.toUpper)

/-- `AppAgentProcessor._col_letter_to_num`: fold `num = num * 26 + (ord(c) - ord('A') + 1)`
over the letters. -/
def col_letter_to_num (col_letter : String) : Nat :=
  col_letter.data.foldl (fun num c => num * 26 + (c.toNat - 'A'.toNat + 1)) 0

/-- Loop body of `AppAgentProcessor._col_num_to_letter`
(`while col_num > 0: col_num -= 1; result = chr(col_num % 26 + ord('A')) + result;
col_num //= 26`).  The `fuel` argument bounds the iteration count purely to make
the recursion structural; `col_num` strictly decreases on every iteration, so
fuel `col_num` is always sufficient and the function agrees with the source loop. -/
def col_num_to_letter_go (fuel : Nat) (col_num : Nat) (result : String) : String :=
  match fuel with
  | 0 => result
  | fuel + 1 =>
    match col_num with
    | 0 => result
    | m + 1 =>
      col_num_to_letter_go fuel (m / 26) (String.mk [Char.ofNat (m % 26 + 'A'.toNat)] ++ result)

/-- `AppAgentProcessor._col_num_to_letter`. -/
def col_num_to_letter (col_num : Nat) : String :=
  col_num_to_letter_go col_num col_num ""

/-- An accessibility-backend control as seen by the processor: the duck-typed
fields read through `getattr` in `_is_cell_control`, `_infer_cell_position`
and `_get_cells_in_range_from_annotation` (`window_text()`,
`element_info.control_type`, `element_info.class_name`, `element_info.source`,
`rectangle()`). -/
structure ControlElement where
  window_text : String
  control_type : String
  class_name : String
  source : String
  rect : Rect
deriving DecidableEq, Repr

/-- The per-cell record built by `_get_cells_in_range_from_annotation`
(`left/top/right/bottom/row/col/label/text`). -/
structure CellInfo where
  left : Int
  top : Int
  right : Int
  bottom : Int
  row : Int
  col : Int
  label : Nat
  text : String
deriving DecidableEq, Repr

/-- The layout measurements produced by `_detect_excel_interface_layout`. -/
structure Layout where
  worksheet_left : Int
  worksheet_top : Int
  cell_width : Int
  cell_height : Int
deriving DecidableEq, Repr

/-- The conservative default layout used both as the initial value of the
detection and as the result of the exception handler. -/
def defaultLayout : Layout :=
  { worksheet_left := 48, worksheet_top := 201, cell_width := 72, cell_height := 21 }

/-- `AppAgentProcessor._is_cell_control`: any of the four cell indicators. -/
def is_cell_control (c : ControlElement) (_control_text : String) : Bool :=
  strIn "cell" (pyLower c.control_type) ||
  strIn "cell" (pyLower c.class_name) ||
  c.source == "grounding" ||
  (c.control_type == "Edit" || c.control_type == "Text" || c.control_type == "DataItem")

/-- The regex `^([A-Z]+)(\d+)$` of `_infer_cell_position`: a nonempty run of
uppercase letters followed by a nonempty run of digits and nothing else.
Returns the two capture groups. -/
def parseCellAddress (s : String) : Option (String × String) :=
  let cs := s.data
  let letters := cs.takeWhile (fun c => 'A' ≤ c && c ≤ 'Z')
  let rest := cs.dropWhile (fun c => 'A' ≤ c && c ≤ 'Z')
  if !letters.isEmpty && !rest.isEmpty && rest.all Char.isDigit then
    some (String.mk letters, String.mk rest)
  else
    none

/-- Python `int` on a decimal digit string. -/
def digitsToNat (s : String) : Nat :=
  s.data.foldl (fun n c => n * 10 + (c.toNat - '0'.toNat)) 0

/-- `AppAgentProcessor._infer_position_from_coordinates`: project the control's
rectangle through the cached layout model.  The layout produced by
`_detect_excel_interface_layout` is passed in explicitly.  Python `//` is floor
division, hence `Int.fdiv`. -/
def infer_position_from_coordinates (layout : Layout) (appRect : Rect)
    (c : ControlElement) : Option (Int × Int) :=
  let relative_left := c.rect.left - appRect.left - layout.worksheet_left
  let relative_top := c.rect.top - appRect.top - layout.worksheet_top
  if relative_left ≥ 0 && relative_top ≥ 0 then
    some (Int.fdiv relative_top layout.cell_height + 1,
      Int.fdiv relative_left layout.cell_width + 1)
  else
    none

/-- `AppAgentProcessor._infer_cell_position`: parse a cell-address-shaped text
label (method 1), falling back to coordinate projection (method 2).  Python's
`actual_text or control_text` picks `control_text` when `window_text()` is
empty.  Returns `(row, col)` with 1-based indices. -/
def infer_cell_position (layout : Layout) (appRect : Rect) (c : ControlElement)
    (control_text : String) : Option (Int × Int) :=
  let actual_text := c.window_text
  let text_to_parse := if actual_text == "" then control_text else actual_text
  if !(text_to_parse == "") && decide (text_to_parse.length ≤ 10) then
    match parseCellAddress (pyUpper (pyStrip text_to_parse)) with
    | some (col_letter, row_num) =>
      some ((digitsToNat row_num : Int), (col_letter_to_num col_letter : Int))
    | none => infer_position_from_coordinates layout appRect c
  else
    infer_position_from_coordinates layout appRect c

/-- `AppAgentProcessor._get_cells_in_range_from_annotation`: walk the API
annotation dictionary (an insertion-ordered label/control association list),
keep the cell controls whose inferred `(row, col)` address falls inside the
requested rectangle of rows/columns, and record their rectangles.
`cellRangeStep` is the loop body for one `(label, control)` entry. -/
def cellRangeStep (layout : Layout) (appRect : Rect)
    (start_row start_col end_row end_col : Int)
    (range_cells : List CellInfo) (kv : Nat × ControlElement) : List CellInfo :=
  let control_label := kv.1
  let c := kv.2
  let control_text := c.window_text
  if is_cell_control c control_text then
    match infer_cell_position layout appRect c control_text with
    | some (cell_row, cell_col) =>
      if start_row ≤ cell_row && cell_row ≤ end_row &&
          start_col ≤ cell_col && cell_col ≤ end_col then
        range_cells ++
          [{ left := c.rect.left, top := c.rect.top, right := c.rect.right,
             bottom := c.rect.bottom, row := cell_row, col := cell_col,
             label := control_label, text := control_text }]
      else range_cells
    | none => range_cells
  else range_cells

def get_cells_in_range_from_api_dict (layout : Layout) (appRect : Rect)
    (api_dict : List (Nat × ControlElement))
    (start_row start_col end_row end_col : Int) : List CellInfo :=
  if api_dict.isEmpty then []
  else
    api_dict.foldl (cellRangeStep layout appRect start_row start_col end_row end_col) []

/-- `AppAgentProcessor._calculate_merged_rectangle`: bounding rectangle
(min-left, min-top, max-right, max-bottom) of the found cells; `none` for the
empty list (Python returns the falsy `\x7b\x7d`). -/
def calculate_merged_rectangle (cells_info : List CellInfo) : Option Rect :=
  match cells_info with
  | [] => none
  | c :: rest =>
    some { left := rest.foldl (fun m x => min m x.left) c.left,
           top := rest.foldl (fun m x => min m x.top) c.top,
           right := rest.foldl (fun m x => max m x.right) c.right,
           bottom := rest.foldl (fun m x => max m x.bottom) c.bottom }

/-- The bounds clamping shared by both tiers of
`_get_excel_range_coordinates`: clamp `left`/`top` into
`[0, width-1]`/`[0, height-1]` first, then force `right > left` and
`bottom > top` while capping at `width`/`height`. -/
def clamp_rect_to_window (appRect : Rect) (r : Rect) : Rect :=
  let left := max 0 (min r.left (appRect.width - 1))
  let top := max 0 (min r.top (appRect.height - 1))
  let right := max (left + 1) (min r.right appRect.width)
  let bottom := max (top + 1) (min r.bottom appRect.height)
  { left := left, top := top, right := right, bottom := bottom }

/-- `AppAgentProcessor._get_excel_range_coordinates`: tier 1 uses the cells
found in the API annotation dictionary and returns their merged rectangle
offset to window-relative coordinates and clamped; tier 2 (taken when tier 1
finds no cells) computes the rectangle arithmetically from the layout model
and clamps it the same way.  The layout that the source obtains by calling
`_detect_excel_interface_layout` is passed in explicitly. -/
def get_excel_range_coordinates (layout : Layout) (appRect : Rect)
    (api_dict : List (Nat × ControlElement))
    (start_row start_col end_row end_col : Int) : List Rect :=
  let range_cells :=
    get_cells_in_range_from_api_dict layout appRect api_dict
      start_row start_col end_row end_col
  let tier2 :=
    let left := layout.worksheet_left + (start_col - 1) * layout.cell_width
    let top := layout.worksheet_top + (start_row - 1) * layout.cell_height
    let right := layout.worksheet_left + end_col * layout.cell_width
    let bottom := layout.worksheet_top + end_row * layout.cell_height
    [clamp_rect_to_window appRect { left := left, top := top, right := right, bottom := bottom }]
  if !range_cells.isEmpty then
    match calculate_merged_rectangle range_cells with
    | some merged =>
      let relative : Rect := { left := merged.left - appRect.left,
                               top := merged.top - appRect.top,
                               right := merged.right - appRect.left,
                               bottom := merged.bottom - appRect.top }
      [clamp_rect_to_window appRect relative]
    | none => tier2
  else tier2

/-- A descendant control examined by `_detect_excel_interface_layout`: the
fields read through `getattr` on `element_info`, plus `window_text()` and
`rectangle()`.  `rect = none` models a control whose `rectangle()` call raises
(the loop skips it). -/
structure DescControl where
  name : String
  automation_id : String
  class_name : String
  control_type : String
  window_text : String
  rect : Option Rect
deriving DecidableEq, Repr

/-- The landmark accumulator of the detection loop in
`_detect_excel_interface_layout`. -/
structure LandmarkScan where
  name_box_rect : Option Rect
  formula_bar_rect : Option Rect
  row_headers : List Rect
  column_headers : List Rect
  ribbon_height : Int
deriving DecidableEq, Repr

def initLandmarkScan : LandmarkScan :=
  { name_box_rect := none, formula_bar_rect := none, row_headers := [],
    column_headers := [], ribbon_height := 0 }

/-- One iteration of the landmark-detection loop (the `elif` chain over the
descendants).  The source compares pixel positions against fractions of the
window size (`0.2`, `0.3`, `0.15`, `0.4`, `0.25`); these are encoded by exact
cross-multiplication, e.g. `rect.top < height * 0.2` as `5 * rect.top < height`. -/
def scanStep (appRect : Rect) (st : LandmarkScan) (c : DescControl) : LandmarkScan :=
  let control_name := pyLower c.name
  let control_id := c.automation_id
  match c.rect with
  | none => st
  | some rect =>
    if strIn "name box" control_name || control_id == "FormulaBarNameBox" ||
        control_id == "NameBox" ||
        (c.control_type == "ComboBox" && decide (5 * rect.top < appRect.height)) then
      { st with name_box_rect := some rect }
    else if strIn "formula bar" control_name || strIn "formula" control_name ||
        control_id == "FormulaBarEdit" || control_id == "FormulaEditBox" ||
        (c.control_type == "Edit" && decide (5 * rect.top < appRect.height) &&
          decide (10 * rect.width > 3 * appRect.width)) then
      { st with formula_bar_rect := some rect }
    else if c.control_type == "HeaderItem" && decide (20 * rect.left < 3 * appRect.width) &&
        decide (rect.width < 80) && decide (rect.height < 60) then
      if pyIsDigit c.window_text || decide (rect.left - appRect.left < 100) then
        { st with row_headers := st.row_headers ++ [rect] }
      else st
    else if c.control_type == "HeaderItem" && decide (5 * rect.top < 2 * appRect.height) &&
        decide (rect.width < 250) && decide (rect.height < 60) then
      if pyIsAlpha c.window_text || decide (10 * (rect.top - appRect.top) < 3 * appRect.height) then
        { st with column_headers := st.column_headers ++ [rect] }
      else st
    else if strIn "ribbon" control_name ||
        (strIn "tab" control_name && decide (4 * rect.top < appRect.height)) then
      { st with ribbon_height := max st.ribbon_height (rect.bottom - appRect.top) }
    else st

/-- Stable insertion keeping existing `le`-smaller-or-equal elements in front. -/
def insertAfterLe (le : α → α → Bool) (x : α) : List α → List α
  | [] => [x]
  | y :: ys => if le y x then y :: insertAfterLe le x ys else x :: y :: ys

/-- Python's stable `sorted` / `list.sort`, as an insertion sort. -/
def pySorted (le : α → α → Bool) (l : List α) : List α :=
  l.foldl (fun acc x => insertAfterLe le x acc) []

/-- Differences `f l[i+1] - f l[i]` between consecutive elements. -/
def consecutiveDiffs (f : α → Int) : List α → List Int
  | a :: b :: rest => (f b - f a) :: consecutiveDiffs f (b :: rest)
  | _ => []

/-- Maximum of a nonempty list (the default is only used when empty). -/
def listMaxD : List Int → Int → Int
  | [], d => d
  | x :: xs, _ => xs.foldl max x

/-- The layout computation of `_detect_excel_interface_layout` when no
exception occurs: scan the descendants for landmarks, derive the four
measurements (with their per-branch lower bounds), take the median spacing of
sorted headers for the cell dimensions, and clamp everything to sane bounds. -/
def computeLayout (appRect : Rect) (descendants : List DescControl) : Layout :=
  let scan := descendants.foldl (scanStep appRect) initLandmarkScan
  let worksheet_left : Int :=
    if !scan.row_headers.isEmpty then
      max 20 (listMaxD (scan.row_headers.map Rect.right) 0 - appRect.left + 3)
    else
      match scan.name_box_rect with
      | some nb => max 40 (nb.left - appRect.left)
      | none => 48
  let worksheet_top : Int :=
    if !scan.column_headers.isEmpty then
      max 120 (listMaxD (scan.column_headers.map Rect.bottom) 0 - appRect.top + 3)
    else
      match scan.formula_bar_rect with
      | some fb => max 150 (fb.bottom - appRect.top + 35)
      | none =>
        match scan.name_box_rect with
        | some nb => max 150 (nb.bottom - appRect.top + 55)
        | none => if scan.ribbon_height > 0 then max 150 (scan.ribbon_height + 80) else 201
  let cell_width : Int :=
    if scan.column_headers.length ≥ 2 then
      let sorted_headers := pySorted (fun a b => decide (a.left ≤ b.left)) scan.column_headers
      let widths := (consecutiveDiffs Rect.left sorted_headers).filter
        (fun w => decide (25 < w) && decide (w < 300))
      if !widths.isEmpty then
        let ws := pySorted (fun a b => decide (a ≤ b)) widths
        ws.getD (ws.length / 2) 0
      else 72
    else 72
  let cell_height : Int :=
    if scan.row_headers.length ≥ 2 then
      let sorted_headers := pySorted (fun a b => decide (a.top ≤ b.top)) scan.row_headers
      let heights := (consecutiveDiffs Rect.top sorted_headers).filter
        (fun h => decide (12 < h) && decide (h < 80))
      if !heights.isEmpty then
        let hs := pySorted (fun a b => decide (a ≤ b)) heights
        hs.getD (hs.length / 2) 0
      else 21
    else 21
  { worksheet_left := max 15 (min worksheet_left 250),
    worksheet_top := max 80 (min worksheet_top 500),
    cell_width := max 25 (min cell_width 400),
    cell_height := max 12 (min cell_height 120) }

/-- The class-level mutable state behind the layout cache:
`AppAgentProcessor._excel_layout_cache` (a dict keyed by `id(window)`) and the
single shared `AppAgentProcessor._cache_timestamp`. -/
structure LayoutCacheState where
  excel_layout_cache : List (Nat × Layout)
  cache_timestamp : Int
deriving DecidableEq, Repr

def initialCacheState : LayoutCacheState :=
  { excel_layout_cache := [], cache_timestamp := 0 }

/-- Python dict lookup `cache[key]` / `key in cache`. -/
def lookupCache (cache : List (Nat × Layout)) (k : Nat) : Option Layout :=
  (cache.find? (fun kv => kv.1 == k)).map (fun kv => kv.2)

/-- Python dict assignment `cache[key] = v`: replace in place or append. -/
def insertCache (cache : List (Nat × Layout)) (k : Nat) (v : Layout) : List (Nat × Layout) :=
  match cache with
  | [] => [(k, v)]
  | kv :: rest => if kv.1 == k then (k, v) :: rest else kv :: insertCache rest k v

/-- Result of one call to `_detect_excel_interface_layout`: the returned
layout, whether the detection body actually ran (`false` when the call was
served from the cache), and the updated class-level state. -/
structure DetectOutcome where
  layout : Layout
  ranDetection : Bool
  state : LayoutCacheState
deriving DecidableEq, Repr

/-- The body of `_detect_excel_interface_layout` past the cache check.  The
input models the `try` block: `some (appRect, descendants)` is a normal run
over the window rectangle and the descendant controls; `none` means some
exception was raised inside the block, taking the handler path that returns
(and caches) `defaultLayout`. -/
def detectBody (st : LayoutCacheState) (time : Int) (windowId : Nat)
    (input : Option (Rect × List DescControl)) : DetectOutcome :=
  match input with
  | some (appRect, descendants) =>
    let layout := computeLayout appRect descendants
    { layout := layout, ranDetection := true,
      state := { excel_layout_cache := insertCache st.excel_layout_cache windowId layout,
                 cache_timestamp := time } }
  | none =>
    { layout := defaultLayout, ranDetection := true,
      state := { excel_layout_cache := insertCache st.excel_layout_cache windowId defaultLayout,
                 cache_timestamp := time } }

/-- `AppAgentProcessor._detect_excel_interface_layout`: serve from the cache
when the window's key is present and less than 30 seconds have passed since
the (shared) cache timestamp; otherwise run the detection body and cache its
result. -/
def detect_excel_interface_layout (st : LayoutCacheState) (time : Int) (windowId : Nat)
    (input : Option (Rect × List DescControl)) : DetectOutcome :=
  if (lookupCache st.excel_layout_cache windowId).isSome &&
      decide (time - st.cache_timestamp < 30) then
    { layout := (lookupCache st.excel_layout_cache windowId).getD defaultLayout,
      ranDetection := false, state := st }
  else
    detectBody st time windowId input

/-- `AppAgentProcessor.clear_excel_layout_cache`: empty the dict and reset the
shared timestamp to 0. -/
def clear_excel_layout_cache (_st : LayoutCacheState) : LayoutCacheState :=
  { excel_layout_cache := [], cache_timestamp := 0 }

/-- Modelled from the spec: the three control-filter stages created by
`ControlFilterFactory` (text keyword match, semantic-embedding match, and
cropped-icon match, in `ufo/automator/ui_control/control_filter.py`, which is
not part of the source tree under verification).  Per the spec each stage
"independently computes a candidate filtered subset" of the annotation
dictionary, driven by the recent plans; a stage is therefore a selection of
the input's entries by a stage-specific relevance predicate. -/
structure FilterStages where
  text_pred : Nat → ControlElement → Bool
  semantic_pred : Nat → ControlElement → Bool
  icon_pred : Nat → ControlElement → Bool

/-- Modelled from the spec: a single filter stage's `control_filter` call,
the subset of the input dictionary selected by the stage's predicate. -/
def control_filter_stage (pred : Nat → ControlElement → Bool)
    (d : List (Nat × ControlElement)) : List (Nat × ControlElement) :=
  d.filter (fun kv => pred kv.1 kv.2)

/-- Modelled from the spec:
`ControlFilterFactory.inplace_append_filtered_annotation_dict` (not under the
source tree) unions the stage subsets in place — "a control survives if any
enabled stage selects it". -/
def inplace_append_filtered_dict (acc extra : List (Nat × ControlElement)) :
    List (Nat × ControlElement) :=
  acc ++ extra.filter (fun kv => !acc.any (fun kv2 => kv2.1 == kv.1))

/-- `AppAgentProcessor.get_filtered_annotation_dict`: return the input
unchanged when no filter type is configured or there is no previous plan;
otherwise lower-case the configured filter types and union the subsets
produced by the enabled stages (text, then semantic, then icon). -/
def get_filtered_annotation_dict (control_filter_type : List String)
    (prev_plan : List String) (stages : FilterStages)
    (annotation_dict : List (Nat × ControlElement)) : List (Nat × ControlElement) :=
  if control_filter_type.length == 0 || prev_plan == [] then annotation_dict
  else
    let control_filter_type_lower := control_filter_type.map pyLower
    let d0 : List (Nat × ControlElement) := []
    let d1 :=
      if control_filter_type_lower.contains "text" then
        inplace_append_filtered_dict d0 (control_filter_stage stages.text_pred annotation_dict)
      else d0
    let d2 :=
      if control_filter_type_lower.contains "semantic" then
        inplace_append_filtered_dict d1 (control_filter_stage stages.semantic_pred annotation_dict)
      else d1
    let d3 :=
      if control_filter_type_lower.contains "icon" then
        inplace_append_filtered_dict d2 (control_filter_stage stages.icon_pred annotation_dict)
      else d2
    d3

/-- The retry loop of `AppAgentProcessor.get_response`
(`retry = 0; while retry < JSON_PARSING_RETRY: call model; try parse, break;
except: retry += 1`).  `model i` is the response returned by the i-th model
call, `parse` is `response_to_dict` (`none` models a parse exception).
Returns the number of model calls made and the final stored `_response`.
`fuel` is the remaining retry budget, exactly `JSON_PARSING_RETRY - retry`. -/
def get_response_go (model : Nat → ρ) (parse : ρ → Option δ) :
    Nat → Nat → Option ρ → Nat × Option ρ
  | 0, calls, last => (calls, last)
  | fuel + 1, calls, _ =>
    let r := model calls
    match parse r with
    | some _ => (calls + 1, some r)
    | none => get_response_go model parse fuel (calls + 1) (some r)

/-- `AppAgentProcessor.get_response` as a whole: run the retry loop with the
configured `JSON_PARSING_RETRY` budget. -/
def get_response (json_parsing_retry : Nat) (model : Nat → ρ) (parse : ρ → Option δ) :
    Nat × Option ρ :=
  get_response_go model parse json_parsing_retry 0 none

/-- `AppAgent.response_to_dict` as used by `parse_response`: parsing the
stored response, raising (modelled as `Except.error`) when it is missing or
not valid structured data. -/
def response_to_dict (parse : ρ → Option δ) (response : Option ρ) : Except String δ :=
  match response with
  | none => Except.error "response is not available"
  | some r =>
    match parse r with
    | some d => Except.ok d
    | none => Except.error "error in parsing response into a dictionary"

/-- Modelled from the spec: the `BaseProcessor.exception_capture` decorator
(defined in `ufo/agents/processors/basic.py`, which is not part of the source
tree under verification).  Per the spec, "each state is wrapped so an
exception inside it is captured, recorded as the step's error, and does not
crash the process".  It turns a possibly-raising computation into a value
plus the recorded error string (empty when no exception occurred). -/
def exception_capture (act : Except String α) : Option α × String :=
  match act with
  | Except.ok a => (some a, "")
  | Except.error e => (none, e)

/-- The observable outcome of the CallModel / ParseResponse portion of one
step: how many model calls `get_response` made, the stored raw response, the
parsed dictionary (if any), and the step's recorded error string. -/
structure StepModelOutcome (ρ δ : Type) where
  modelCalls : Nat
  response : Option ρ
  parsed : Option δ
  error : String

/-- `get_response` followed by `parse_response`, with the parse exception
captured by the (spec-modelled) `exception_capture` wrapper.  The function is
total: no exception propagates out of the step processor by construction. -/
def runModelStep (json_parsing_retry : Nat) (model : Nat → ρ) (parse : ρ → Option δ) :
    StepModelOutcome ρ δ :=
  let out := get_response json_parsing_retry model parse
  let captured := exception_capture (response_to_dict parse out.2)
  { modelCalls := out.1, response := out.2, parsed := captured.1, error := captured.2 }

/-- The fields of `OneStepAction` that `execute_action` reads. -/
structure OneStepAction where
  function : String
  control_label : Nat
  control_text : String
  after_status : String
deriving DecidableEq, Repr

/-- The observable outcome of `AppAgentProcessor.execute_action`. -/
structure ExecuteActionResult where
  status : String
  control_selected : Option ControlElement
  results : List (Bool × String)
deriving DecidableEq, Repr

/-- Python dict `.get(label, None)` on the annotation dictionary. -/
def lookupLabel (d : List (Nat × ControlElement)) (label : Nat) : Option ControlElement :=
  (d.find? (fun kv => kv.1 == label)).map (fun kv => kv.2)

/-- `AppAgentProcessor.execute_action`: resolve the selected control from the
annotation dictionary (absence is tolerated), execute the action sequence
(its per-action success/result pairs are supplied by the abstract executor),
and, when the application window is detected as closed afterwards, force the
step status to FINISH.  Total — no exception escapes. -/
def execute_action (annotation_dict : List (Nat × ControlElement))
    (action : OneStepAction) (execution_results : List (Bool × String))
    (is_application_closed : Bool) : ExecuteActionResult :=
  let control_selected := lookupLabel annotation_dict action.control_label
  { status := if is_application_closed then "FINISH" else action.after_status,
    control_selected := control_selected,
    results := execution_results }

/-- The ambient configuration as far as `capture_screenshot` mutates it:
the `CONTROL_LIST` entry (`none` models the key being absent, in which case
`configs.get("CONTROL_LIST", [])` falls back to the empty list). -/
structure ConfigMap where
  control_list : Option (List String)
deriving DecidableEq, Repr

/-- The expanded API control-type allowlist hard-coded in
`capture_screenshot`. -/
def api_control_types : List String :=
  ["Button", "Edit", "TabItem", "Document", "ListItem", "MenuItem", "ScrollBar",
   "TreeItem", "Hyperlink", "ComboBox", "RadioButton", "Spinner", "CheckBox", "DataItem"]

/-- The CONTROL_LIST swap in `AppAgentProcessor.capture_screenshot`: save the
original value, overwrite the entry with the expanded API allowlist, run
`get_control_list` (which reads the current CONTROL_LIST and may raise,
modelled by `Except`), and restore the original value.  When the scan raises,
the exception propagates before the restore line runs, leaving the overwrite
in place (to be captured by the method-level wrapper). -/
def capture_api_control_scan (cfg : ConfigMap)
    (get_control_list : List String → Except String (List ControlElement)) :
    Except String (List ControlElement) × ConfigMap :=
  let original_control_list := cfg.control_list.getD []
  let cfg2 : ConfigMap := { control_list := some api_control_types }
  match get_control_list (cfg2.control_list.getD []) with
  | Except.ok api_control_list =>
    (Except.ok api_control_list, { control_list := some original_control_list })
  | Except.error e => (Except.error e, cfg2)

set_option maxHeartbeats 1000000 in
set_option maxRecDepth 4000 in
/-- C8: converting a spreadsheet column number to its letter form with
`_col_num_to_letter` and back with `_col_letter_to_num` is the identity for
every column number from 1 to 702 (A..ZZ); in particular 1 maps to "A", 27 to
"AA" and 702 to "ZZ". -/
theorem C8_column_letter_roundtrip :
    (∀ n : Fin 702, col_letter_to_num (col_num_to_letter (n.val + 1)) = n.val + 1) ∧
    col_num_to_letter 1 = "A" ∧ col_num_to_letter 27 = "AA" ∧
    col_num_to_letter 702 = "ZZ" := by
  decide

/-- C9: if the application window is detected as closed immediately after the
step's action sequence is executed, `execute_action` forces the step status
to FINISH; the function is total, so it cannot raise, and the session ends
through a terminal outcome. -/
theorem C9_closed_application_forces_finish (annotation_dict : List (Nat × ControlElement))
    (action : OneStepAction) (execution_results : List (Bool × String)) :
    (execute_action annotation_dict action execution_results true).status = "FINISH" := rfl

/-- C7: if the configured CONTROL_FILTER_TYPE list is empty or there is no
previous plan, `get_filtered_annotation_dict` returns the input annotation
dictionary unchanged. -/
theorem C7_empty_filter_config_identity (control_filter_type prev_plan : List String)
    (stages : FilterStages) (annotation_dict : List (Nat × ControlElement))
    (h : control_filter_type = [] ∨ prev_plan = []) :
    get_filtered_annotation_dict control_filter_type prev_plan stages annotation_dict =
      annotation_dict := by
  rcases h with h | h <;> subst h <;> simp [get_filtered_annotation_dict]

/-- Witness for C7 at a concrete input. -/
theorem C7_empty_filter_config_identity_witness :
    get_filtered_annotation_dict [] ["open the file"]
      ⟨fun _ _ => true, fun _ _ => true, fun _ _ => true⟩
      [(1, ⟨"OK", "Button", "", "uia", ⟨0, 0, 10, 10⟩⟩)] =
      [(1, ⟨"OK", "Button", "", "uia", ⟨0, 0, 10, 10⟩⟩)] :=
  C7_empty_filter_config_identity [] ["open the file"]
    ⟨fun _ _ => true, fun _ _ => true, fun _ _ => true⟩
    [(1, ⟨"OK", "Button", "", "uia", ⟨0, 0, 10, 10⟩⟩)] (Or.inl rfl)

/-- C10: `capture_screenshot` temporarily overwrites the CONTROL_LIST
configuration entry with the expanded API allowlist for the scan, and for
every execution in which the scan does not raise, the CONTROL_LIST value
after the call equals its value before the call. -/
theorem C10_control_list_restored (cfg : ConfigMap)
    (get_control_list : List String → Except String (List ControlElement))
    (original : List String) (scanned : List ControlElement)
    (hpresent : cfg.control_list = some original)
    (hok : get_control_list api_control_types = Except.ok scanned) :
    (capture_api_control_scan cfg get_control_list).2.control_list = cfg.control_list ∧
    (capture_api_control_scan cfg get_control_list).1 = Except.ok scanned := by
  simp [capture_api_control_scan, hpresent, hok]

/-- Witness for C10 at a concrete input. -/
theorem C10_control_list_restored_witness :
    (capture_api_control_scan ⟨some ["Button", "Edit"]⟩ (fun _ => Except.ok [])).2.control_list =
      (⟨some ["Button", "Edit"]⟩ : ConfigMap).control_list ∧
    (capture_api_control_scan ⟨some ["Button", "Edit"]⟩ (fun _ => Except.ok [])).1 =
      Except.ok [] :=
  C10_control_list_restored ⟨some ["Button", "Edit"]⟩ (fun _ => Except.ok [])
    ["Button", "Edit"] [] rfl rfl

/-- When every model response fails to parse, the retry loop makes one model
call per unit of fuel and the stored response is the last call's response
(or the initial value when the budget is 0). -/
theorem get_response_go_all_fail (model : Nat → ρ) (parse : ρ → Option δ)
    (hfail : ∀ i, parse (model i) = none) (fuel : Nat) :
    ∀ calls last, (get_response_go model parse fuel calls last).1 = calls + fuel ∧
      ((get_response_go model parse fuel calls last).2 = last ∨
        ∃ i, (get_response_go model parse fuel calls last).2 = some (model i)) := by
  induction fuel with
  | zero => intro calls last; simp [get_response_go]
  | succ n ih =>
    intro calls last
    have h := hfail calls
    simp only [get_response_go, h]
    refine ⟨?_, ?_⟩
    · have := (ih (calls + 1) (some (model calls))).1
      omega
    · rcases (ih (calls + 1) (some (model calls))).2 with h2 | ⟨i, h2⟩
      · exact Or.inr ⟨calls, h2⟩
      · exact Or.inr ⟨i, h2⟩

/-- C1: for a step whose model responses all fail to parse as the expected
structured format, the model call in `get_response` is made exactly
JSON_PARSING_RETRY times, the step is recorded with a non-empty error and no
parsed response, and — `runModelStep` being a total function — no exception
propagates out of the step processor. -/
theorem C1_parse_failure_bounded_retry (json_parsing_retry : Nat) (model : Nat → ρ)
    (parse : ρ → Option δ) (hfail : ∀ i, parse (model i) = none) :
    (runModelStep json_parsing_retry model parse).modelCalls = json_parsing_retry ∧
    (runModelStep json_parsing_retry model parse).error ≠ "" ∧
    (runModelStep json_parsing_retry model parse).parsed = none := by
  have h := get_response_go_all_fail model parse hfail json_parsing_retry 0 none
  simp only [runModelStep, get_response] at *
  refine ⟨by simpa using h.1, ?_, ?_⟩
  · rcases h.2 with h2 | ⟨i, h2⟩
    · simp [h2, response_to_dict, exception_capture]
    · simp [h2, response_to_dict, exception_capture, hfail i]
  · rcases h.2 with h2 | ⟨i, h2⟩
    · simp [h2, response_to_dict, exception_capture]
    · simp [h2, response_to_dict, exception_capture, hfail i]

/-- Witness for C1 at a concrete input: a model that always answers `0`, a
parser that always fails, and a retry budget of 3. -/
theorem C1_parse_failure_bounded_retry_witness :
    (runModelStep 3 (fun _ => (0 : Nat)) (fun _ => (none : Option Unit))).modelCalls = 3 ∧
    (runModelStep 3 (fun _ => (0 : Nat)) (fun _ => (none : Option Unit))).error ≠ "" ∧
    (runModelStep 3 (fun _ => (0 : Nat)) (fun _ => (none : Option Unit))).parsed = none :=
  C1_parse_failure_bounded_retry 3 (fun _ => (0 : Nat)) (fun _ => (none : Option Unit))
    (fun _ => rfl)

/-- C3: whenever the annotation-based tier finds no matching cells, the range
rectangle is computed arithmetically from the cached layout model
(`left = worksheet_left + (start_col - 1) * cell_width` and analogously for
the other edges) and the returned rectangle is clamped to the window's client
bounds: `0 ≤ left < right ≤ width` and `0 ≤ top < bottom ≤ height`. -/
theorem C3_landmark_fallback_formula (layout : Layout) (appRect : Rect)
    (api_dict : List (Nat × ControlElement)) (start_row start_col end_row end_col : Int)
    (hempty : get_cells_in_range_from_api_dict layout appRect api_dict
      start_row start_col end_row end_col = [])
    (hw : 1 ≤ appRect.width) (hh : 1 ≤ appRect.height) :
    get_excel_range_coordinates layout appRect api_dict start_row start_col end_row end_col =
      [clamp_rect_to_window appRect
        { left := layout.worksheet_left + (start_col - 1) * layout.cell_width,
          top := layout.worksheet_top + (start_row - 1) * layout.cell_height,
          right := layout.worksheet_left + end_col * layout.cell_width,
          bottom := layout.worksheet_top + end_row * layout.cell_height }] ∧
    ∀ r ∈ get_excel_range_coordinates layout appRect api_dict start_row start_col end_row end_col,
      0 ≤ r.left ∧ r.left < r.right ∧ r.right ≤ appRect.width ∧
      0 ≤ r.top ∧ r.top < r.bottom ∧ r.bottom ≤ appRect.height := by
  have heq : get_excel_range_coordinates layout appRect api_dict
      start_row start_col end_row end_col =
      [clamp_rect_to_window appRect
        { left := layout.worksheet_left + (start_col - 1) * layout.cell_width,
          top := layout.worksheet_top + (start_row - 1) * layout.cell_height,
          right := layout.worksheet_left + end_col * layout.cell_width,
          bottom := layout.worksheet_top + end_row * layout.cell_height }] := by
    simp [get_excel_range_coordinates, hempty]
  refine ⟨heq, ?_⟩
  intro r hr
  rw [heq] at hr
  simp only [List.mem_singleton] at hr
  subst hr
  simp only [clamp_rect_to_window, Rect.width, Rect.height] at hw hh ⊢
  omega

/-- Witness for C3 at a concrete input: an empty API annotation dictionary on
an 800 by 600 window with the default layout. -/
theorem C3_landmark_fallback_formula_witness :
    get_excel_range_coordinates defaultLayout ⟨0, 0, 800, 600⟩ [] 1 1 3 2 =
      [clamp_rect_to_window ⟨0, 0, 800, 600⟩
        { left := defaultLayout.worksheet_left + (1 - 1) * defaultLayout.cell_width,
          top := defaultLayout.worksheet_top + (1 - 1) * defaultLayout.cell_height,
          right := defaultLayout.worksheet_left + 2 * defaultLayout.cell_width,
          bottom := defaultLayout.worksheet_top + 3 * defaultLayout.cell_height }] ∧
    ∀ r ∈ get_excel_range_coordinates defaultLayout ⟨0, 0, 800, 600⟩ [] 1 1 3 2,
      0 ≤ r.left ∧ r.left < r.right ∧ r.right ≤ Rect.width ⟨0, 0, 800, 600⟩ ∧
      0 ≤ r.top ∧ r.top < r.bottom ∧ r.bottom ≤ Rect.height ⟨0, 0, 800, 600⟩ :=
  C3_landmark_fallback_formula defaultLayout ⟨0, 0, 800, 600⟩ [] 1 1 3 2
    (by decide) (by decide) (by decide)

theorem mem_of_mem_control_filter_stage {kv : Nat × ControlElement}
    {pred : Nat → ControlElement → Bool} {d : List (Nat × ControlElement)}
    (h : kv ∈ control_filter_stage pred d) : kv ∈ d :=
  (List.mem_filter.mp h).1

theorem mem_of_mem_inplace_append {kv : Nat × ControlElement}
    {a b : List (Nat × ControlElement)} (h : kv ∈ inplace_append_filtered_dict a b) :
    kv ∈ a ∨ kv ∈ b := by
  rcases List.mem_append.mp h with h | h
  · exact Or.inl h
  · exact Or.inr (List.mem_filter.mp h).1

theorem stage_update_subset {d acc : List (Nat × ControlElement)}
    {pred : Nat → ControlElement → Bool} (c : Bool)
    (hacc : ∀ kv ∈ acc, kv ∈ d) :
    ∀ kv ∈ (if c then inplace_append_filtered_dict acc (control_filter_stage pred d) else acc),
      kv ∈ d := by
  intro kv h
  cases c with
  | false => exact hacc kv (by simpa using h)
  | true =>
    rcases mem_of_mem_inplace_append (by simpa using h) with h | h
    · exact hacc kv h
    · exact mem_of_mem_control_filter_stage h

/-- C6: for every annotation dictionary and every nonempty filter
configuration, the filtered dictionary is a subset of the input: every
label/control pair of the output is a pair of the input, so no stage adds a
control or changes a control's label. -/
theorem C6_filtered_dict_subset (control_filter_type prev_plan : List String)
    (stages : FilterStages) (annotation_dict : List (Nat × ControlElement))
    (_hne : control_filter_type ≠ []) :
    ∀ kv ∈ get_filtered_annotation_dict control_filter_type prev_plan stages annotation_dict,
      kv ∈ annotation_dict := by
  intro kv h
  unfold get_filtered_annotation_dict at h
  split at h
  · exact h
  · simp only at h
    exact stage_update_subset _
      (stage_update_subset _
        (stage_update_subset _ (by intro kv h; simp at h))) kv h

/-- Witness for C6 at a concrete input: a text-only filter selecting label 1
out of a two-entry dictionary. -/
theorem C6_filtered_dict_subset_witness :
    ((1 : Nat), (⟨"OK", "Button", "", "uia", ⟨0, 0, 10, 10⟩⟩ : ControlElement)) ∈
      [((1 : Nat), (⟨"OK", "Button", "", "uia", ⟨0, 0, 10, 10⟩⟩ : ControlElement)),
       ((2 : Nat), (⟨"Cancel", "Button", "", "uia", ⟨0, 10, 10, 20⟩⟩ : ControlElement))] :=
  C6_filtered_dict_subset ["text"] ["click OK"]
    ⟨fun label _ => label == 1, fun _ _ => false, fun _ _ => false⟩
    [(1, ⟨"OK", "Button", "", "uia", ⟨0, 0, 10, 10⟩⟩),
     (2, ⟨"Cancel", "Button", "", "uia", ⟨0, 10, 10, 20⟩⟩)]
    (by decide) (1, ⟨"OK", "Button", "", "uia", ⟨0, 0, 10, 10⟩⟩) (by decide)

theorem lookupCache_insertCache_self (cache : List (Nat × Layout)) (k : Nat) (v : Layout) :
    lookupCache (insertCache cache k v) k = some v := by
  induction cache with
  | nil => simp [insertCache, lookupCache]
  | cons kv rest ih =>
    simp only [insertCache]
    split
    · simp [lookupCache]
    · next h =>
      simp only [lookupCache, List.find?]
      rw [show (kv.1 == k) = false from by simpa using h]
      exact ih

theorem lookupCache_insertCache_ne (cache : List (Nat × Layout)) (k k2 : Nat) (v : Layout)
    (h : k2 ≠ k) : lookupCache (insertCache cache k2 v) k = lookupCache cache k := by
  have hbeq : (k2 == k) = false := by simpa using h
  induction cache with
  | nil => simp [insertCache, lookupCache, List.find?, hbeq]
  | cons kv rest ih =>
    simp only [insertCache]
    split
    · next heq =>
      simp only [lookupCache, List.find?]
      rw [show (k2 == k) = false from by simpa using h,
        show (kv.1 == k) = false from by simp [Nat.beq_eq] at heq ⊢; omega]
    · simp only [lookupCache, List.find?]
      cases hkv : (kv.1 == k) with
      | true => rfl
      | false => exact ih

theorem detectBody_shape (st : LayoutCacheState) (time : Int) (windowId : Nat)
    (input : Option (Rect × List DescControl)) :
    (detectBody st time windowId input).ranDetection = true ∧
    (detectBody st time windowId input).state =
      { excel_layout_cache := insertCache st.excel_layout_cache windowId
          (detectBody st time windowId input).layout,
        cache_timestamp := time } := by
  rcases input with _ | ⟨a, ds⟩ <;> simp [detectBody]

/-- C4: if an exception occurs during layout landmark detection (and likewise
when the window exposes no recognizable landmarks), `_detect_excel_interface_layout`
returns the fixed conservative default layout and stores it in the cache, so
a repeated call on the same window within the 30-second TTL returns the
default without re-running detection. -/
theorem C4_detection_failure_returns_cached_default (st : LayoutCacheState)
    (t1 t2 : Int) (w : Nat) (appRect : Rect) (descendants : List DescControl)
    (input2 : Option (Rect × List DescControl))
    (hmiss : lookupCache st.excel_layout_cache w = none ∨ 30 ≤ t1 - st.cache_timestamp)
    (httl : t2 - t1 < 30)
    (hscan : descendants.foldl (scanStep appRect) initLandmarkScan = initLandmarkScan) :
    (detect_excel_interface_layout st t1 w none).layout = defaultLayout ∧
    lookupCache (detect_excel_interface_layout st t1 w none).state.excel_layout_cache w =
      some defaultLayout ∧
    (detect_excel_interface_layout (detect_excel_interface_layout st t1 w none).state
      t2 w input2).layout = defaultLayout ∧
    (detect_excel_interface_layout (detect_excel_interface_layout st t1 w none).state
      t2 w input2).ranDetection = false ∧
    (detect_excel_interface_layout st t1 w (some (appRect, descendants))).layout =
      defaultLayout ∧
    lookupCache (detect_excel_interface_layout st t1 w
      (some (appRect, descendants))).state.excel_layout_cache w = some defaultLayout := by
  have hcond : ((lookupCache st.excel_layout_cache w).isSome &&
      decide (t1 - st.cache_timestamp < 30)) = false := by
    rcases hmiss with h | h
    · simp [h]
    · simp only [Bool.and_eq_false_iff]
      right
      simpa using by omega
  have hdef : computeLayout appRect descendants = defaultLayout := by
    unfold computeLayout
    rw [hscan]
    rfl
  have h1 : detect_excel_interface_layout st t1 w none =
      { layout := defaultLayout, ranDetection := true,
        state := { excel_layout_cache := insertCache st.excel_layout_cache w defaultLayout,
                   cache_timestamp := t1 } } := by
    simp [detect_excel_interface_layout, hcond, detectBody]
  have h5 : detect_excel_interface_layout st t1 w (some (appRect, descendants)) =
      { layout := defaultLayout, ranDetection := true,
        state := { excel_layout_cache := insertCache st.excel_layout_cache w defaultLayout,
                   cache_timestamp := t1 } } := by
    simp [detect_excel_interface_layout, hcond, detectBody, hdef]
  refine ⟨by rw [h1], ?_, ?_, ?_, by rw [h5], ?_⟩
  · rw [h1]
    exact lookupCache_insertCache_self _ _ _
  · rw [h1]
    simp [detect_excel_interface_layout, lookupCache_insertCache_self, httl]
  · rw [h1]
    simp [detect_excel_interface_layout, lookupCache_insertCache_self, httl]
  · rw [h5]
    exact lookupCache_insertCache_self _ _ _

/-- Witness for C4 at a concrete input: an empty cache, a failing detection
at time 0 for window 1, a repeat call at time 10, and a landmark-free window. -/
theorem C4_detection_failure_returns_cached_default_witness :
    (detect_excel_interface_layout initialCacheState 0 1 none).layout = defaultLayout ∧
    lookupCache (detect_excel_interface_layout initialCacheState 0 1 none).state.excel_layout_cache
      1 = some defaultLayout ∧
    (detect_excel_interface_layout (detect_excel_interface_layout initialCacheState 0 1 none).state
      10 1 none).layout = defaultLayout ∧
    (detect_excel_interface_layout (detect_excel_interface_layout initialCacheState 0 1 none).state
      10 1 none).ranDetection = false ∧
    (detect_excel_interface_layout initialCacheState 0 1
      (some (⟨0, 0, 800, 600⟩, []))).layout = defaultLayout ∧
    lookupCache (detect_excel_interface_layout initialCacheState 0 1
      (some (⟨0, 0, 800, 600⟩, []))).state.excel_layout_cache 1 = some defaultLayout :=
  C4_detection_failure_returns_cached_default initialCacheState 0 10 1 ⟨0, 0, 800, 600⟩ [] none
    (Or.inl rfl) (by decide) rfl

/-- C5 as stated is false: the class-level `_cache_timestamp` is shared by all
windows and is only advanced when a detection runs, so two calls on the same
window less than 30 seconds apart can still re-run detection (when the first
call was itself served from a cache entry whose detection lies further back).
Concretely: window 7 is detected at time 0, a call at time 29 is served from
the cache, and a call at time 45 — only 16 seconds later — re-runs detection
and returns a different layout. -/
theorem C5_counterexample_shared_timestamp :
    ((45 : Int) - 29 < 30) ∧
    (detect_excel_interface_layout
      (detect_excel_interface_layout
        (detect_excel_interface_layout initialCacheState 0 7 none).state 29 7 none).state
      45 7 (some (⟨0, 0, 1000, 1000⟩,
        [⟨"name box", "", "", "", "", some ⟨500, 10, 600, 30⟩⟩]))).ranDetection = true ∧
    (detect_excel_interface_layout
      (detect_excel_interface_layout
        (detect_excel_interface_layout initialCacheState 0 7 none).state 29 7 none).state
      45 7 (some (⟨0, 0, 1000, 1000⟩,
        [⟨"name box", "", "", "", "", some ⟨500, 10, 600, 30⟩⟩]))).layout ≠
      (detect_excel_interface_layout
        (detect_excel_interface_layout initialCacheState 0 7 none).state 29 7 none).layout ∧
    lookupCache
      (detect_excel_interface_layout
        (detect_excel_interface_layout initialCacheState 0 1 none).state 20 2 none).state.excel_layout_cache
      1 = some defaultLayout ∧
    (detect_excel_interface_layout
      (detect_excel_interface_layout
        (detect_excel_interface_layout initialCacheState 0 1 none).state 20 2 none).state
      45 1 none).ranDetection = false ∧
    (detect_excel_interface_layout
      (detect_excel_interface_layout initialCacheState 0 1 none).state 45 1 none).ranDetection =
      true := by
  decide

/-- C5 amended: the cache maps each window identity to its own entry, but the
30-second validity is measured from the single shared timestamp of the most
recent detection (for any window), not per window.  Consequently (1) after a
call that actually ran detection, any call on the same window less than 30
seconds later returns that call's layout without re-running detection; (2) a
detection for a different window never overwrites this window's cached entry
(though it does extend every entry's effective validity, as the
counterexample shows); and (3) after `clear_excel_layout_cache` the next call
always re-runs detection. -/
theorem C5_cache_keying_amended (st : LayoutCacheState) (t1 t2 t3 : Int) (w w2 : Nat)
    (input1 input2 input3 : Option (Rect × List DescControl))
    (hdet : (detect_excel_interface_layout st t1 w input1).ranDetection = true)
    (httl : t2 - t1 < 30) (hne : w2 ≠ w) :
    (detect_excel_interface_layout (detect_excel_interface_layout st t1 w input1).state
      t2 w input2).layout = (detect_excel_interface_layout st t1 w input1).layout ∧
    (detect_excel_interface_layout (detect_excel_interface_layout st t1 w input1).state
      t2 w input2).ranDetection = false ∧
    lookupCache (detect_excel_interface_layout st t3 w2 input3).state.excel_layout_cache w =
      lookupCache st.excel_layout_cache w ∧
    (detect_excel_interface_layout (clear_excel_layout_cache st) t3 w2 input3).ranDetection =
      true := by
  have hbody : detect_excel_interface_layout st t1 w input1 = detectBody st t1 w input1 := by
    by_cases hc : ((lookupCache st.excel_layout_cache w).isSome &&
        decide (t1 - st.cache_timestamp < 30)) = true
    · exfalso
      rw [detect_excel_interface_layout, if_pos hc] at hdet
      simp at hdet
    · rw [detect_excel_interface_layout, if_neg hc]
  obtain ⟨-, hstate⟩ := detectBody_shape st t1 w input1
  refine ⟨?_, ?_, ?_, ?_⟩
  · rw [hbody, hstate, detect_excel_interface_layout]
    rw [if_pos]
    · simp [lookupCache_insertCache_self, hbody]
    · simp [lookupCache_insertCache_self]
      omega
  · rw [hbody, hstate, detect_excel_interface_layout]
    rw [if_pos]
    simp [lookupCache_insertCache_self]
    omega
  · rw [detect_excel_interface_layout]
    split
    · rfl
    · obtain ⟨-, hstate3⟩ := detectBody_shape st t3 w2 input3
      rw [hstate3]
      exact lookupCache_insertCache_ne _ _ _ _ hne
  · rw [detect_excel_interface_layout]
    rw [if_neg]
    · exact (detectBody_shape _ _ _ _).1
    · simp [clear_excel_layout_cache, lookupCache]

/-- Witness for the amended C5 at a concrete input: a detection for window 1
at time 0, a cached call at time 10, an unrelated window 2, and a clear. -/
theorem C5_cache_keying_amended_witness :
    (detect_excel_interface_layout (detect_excel_interface_layout initialCacheState 0 1 none).state
      10 1 none).layout = (detect_excel_interface_layout initialCacheState 0 1 none).layout ∧
    (detect_excel_interface_layout (detect_excel_interface_layout initialCacheState 0 1 none).state
      10 1 none).ranDetection = false ∧
    lookupCache (detect_excel_interface_layout initialCacheState 5 2 none).state.excel_layout_cache
      1 = lookupCache initialCacheState.excel_layout_cache 1 ∧
    (detect_excel_interface_layout (clear_excel_layout_cache initialCacheState) 5 2
      none).ranDetection = true :=
  C5_cache_keying_amended initialCacheState 0 10 5 1 2 none none none (by decide) (by decide)
    (by decide)

theorem cellRangeStep_skip (layout : Layout) (appRect : Rect)
    (sr sc er ec : Int) (l : List (Nat × ControlElement))
    (hl : ∀ kv ∈ l, is_cell_control kv.2 kv.2.window_text = false) (acc : List CellInfo) :
    l.foldl (cellRangeStep layout appRect sr sc er ec) acc = acc := by
  induction l generalizing acc with
  | nil => rfl
  | cons kv rest ih =>
    have h1 : is_cell_control kv.2 kv.2.window_text = false := hl kv (by simp)
    have hstep : cellRangeStep layout appRect sr sc er ec acc kv = acc := by
      unfold cellRangeStep
      simp [h1]
    rw [List.foldl_cons, hstep]
    exact ih (fun kv h => hl kv (by simp [h])) acc

theorem cellRangeStep_a1 (layout : Layout) (appRect : Rect) (lbl : Nat)
    (c : ControlElement) (acc : List CellInfo)
    (hcell : is_cell_control c c.window_text = true)
    (htext : c.window_text = "A1") (hrect : c.rect = ⟨100, 200, 150, 220⟩) :
    cellRangeStep layout appRect 1 1 1 1 acc (lbl, c) =
      acc ++ [⟨100, 200, 150, 220, 1, 1, lbl, "A1"⟩] := by
  have hinf : infer_cell_position layout appRect c "A1" = some (1, 1) := by
    unfold infer_cell_position
    rw [htext]
    rfl
  unfold cellRangeStep
  simp only
  rw [htext] at hcell ⊢
  simp [hcell, hinf, hrect]

/-- C2: on a window whose API annotation dictionary contains exactly one cell
control, whose text is "A1" and whose rectangle is (100, 200, 150, 220),
resolving the range `start_row = start_col = end_row = end_col = 1` through
the annotation-based tier returns that rectangle offset to window-relative
coordinates (each edge shifted by the window's left/top) and clamped to the
window bounds. -/
theorem C2_annotation_tier_single_cell (layout : Layout) (appRect : Rect)
    (pre post : List (Nat × ControlElement)) (lbl : Nat) (c : ControlElement)
    (hothers : ∀ kv ∈ pre ++ post, is_cell_control kv.2 kv.2.window_text = false)
    (hcell : is_cell_control c c.window_text = true)
    (htext : c.window_text = "A1") (hrect : c.rect = ⟨100, 200, 150, 220⟩) :
    get_excel_range_coordinates layout appRect (pre ++ (lbl, c) :: post) 1 1 1 1 =
      [clamp_rect_to_window appRect
        { left := 100 - appRect.left, top := 200 - appRect.top,
          right := 150 - appRect.left, bottom := 220 - appRect.top }] := by
  have hpre : ∀ kv ∈ pre, is_cell_control kv.2 kv.2.window_text = false :=
    fun kv h => hothers kv (List.mem_append.mpr (Or.inl h))
  have hpost : ∀ kv ∈ post, is_cell_control kv.2 kv.2.window_text = false :=
    fun kv h => hothers kv (List.mem_append.mpr (Or.inr h))
  have hcells : get_cells_in_range_from_api_dict layout appRect (pre ++ (lbl, c) :: post)
      1 1 1 1 = [⟨100, 200, 150, 220, 1, 1, lbl, "A1"⟩] := by
    have hne : (pre ++ (lbl, c) :: post).isEmpty = false := by
      cases pre <;> simp [List.isEmpty]
    unfold get_cells_in_range_from_api_dict
    rw [hne]
    simp only [Bool.false_eq_true, if_false]
    rw [List.foldl_append, cellRangeStep_skip layout appRect 1 1 1 1 pre hpre,
      List.foldl_cons, cellRangeStep_a1 layout appRect lbl c [] hcell htext hrect]
    exact cellRangeStep_skip layout appRect 1 1 1 1 post hpost _
  unfold get_excel_range_coordinates
  rw [hcells]
  simp [calculate_merged_rectangle]

/-- Witness for C2 at a concrete input: a window at (10, 20) and a singleton
API annotation dictionary holding the "A1" cell control. -/
theorem C2_annotation_tier_single_cell_witness :
    get_excel_range_coordinates defaultLayout ⟨10, 20, 800, 600⟩
      [(1, ⟨"A1", "DataItem", "", "uia", ⟨100, 200, 150, 220⟩⟩)] 1 1 1 1 =
      [clamp_rect_to_window ⟨10, 20, 800, 600⟩
        { left := 100 - (10 : Int), top := 200 - (20 : Int),
          right := 150 - (10 : Int), bottom := 220 - (20 : Int) }] :=
  C2_annotation_tier_single_cell defaultLayout ⟨10, 20, 800, 600⟩ [] [] 1
    ⟨"A1", "DataItem", "", "uia", ⟨100, 200, 150, 220⟩⟩
    (by intro kv h; simp at h) rfl rfl rfl

end UFO
